import Mathlib

/-!
Shallow embedding of `src/ytdlp_scripts/main.py`.

The program compares video IDs listed on a remote channel with video IDs
parsed from filenames in a local directory, and downloads the missing ones.
External collaborators (the yt-dlp extraction and download calls, the
filesystem listing) are modelled by their results: the extraction result is
a Python-like value `Val`, a local directory is its `is_dir` flag together
with the rendered path texts of its immediate entries, and the downloader
returns a record of its observable effects instead of performing them.
-/

/-- Python-like values, as returned by the external extraction collaborator
(`ydl.extract_info`). Covers the shapes the program inspects: `None`,
strings, integers, booleans, lists and dicts. -/
inductive Val where
  | vNone : Val
  | vStr : String → Val
  | vInt : Int → Val
  | vBool : Bool → Val
  | vList : List Val → Val
  | vDict : List (String × Val) → Val
deriving Repr

mutual

/-- Decidable equality on `Val` (Python `==` on these value shapes).
Written by hand because `deriving DecidableEq` does not handle nested
inductive types. -/
def Val.decEq : (a b : Val) → Decidable (a = b)
  | .vNone, .vNone => .isTrue rfl
  | .vStr a, .vStr b =>
    if h : a = b then .isTrue (by rw [h]) else .isFalse (fun hv => h (Val.vStr.inj hv))
  | .vInt a, .vInt b =>
    if h : a = b then .isTrue (by rw [h]) else .isFalse (fun hv => h (Val.vInt.inj hv))
  | .vBool a, .vBool b =>
    if h : a = b then .isTrue (by rw [h]) else .isFalse (fun hv => h (Val.vBool.inj hv))
  | .vList xs, .vList ys =>
    match Val.decEqList xs ys with
    | .isTrue h => .isTrue (by rw [h])
    | .isFalse h => .isFalse (fun hv => h (Val.vList.inj hv))
  | .vDict xs, .vDict ys =>
    match Val.decEqDict xs ys with
    | .isTrue h => .isTrue (by rw [h])
    | .isFalse h => .isFalse (fun hv => h (Val.vDict.inj hv))
  | .vNone, .vStr _ => .isFalse (fun h => Val.noConfusion h)
  | .vNone, .vInt _ => .isFalse (fun h => Val.noConfusion h)
  | .vNone, .vBool _ => .isFalse (fun h => Val.noConfusion h)
  | .vNone, .vList _ => .isFalse (fun h => Val.noConfusion h)
  | .vNone, .vDict _ => .isFalse (fun h => Val.noConfusion h)
  | .vStr _, .vNone => .isFalse (fun h => Val.noConfusion h)
  | .vStr _, .vInt _ => .isFalse (fun h => Val.noConfusion h)
  | .vStr _, .vBool _ => .isFalse (fun h => Val.noConfusion h)
  | .vStr _, .vList _ => .isFalse (fun h => Val.noConfusion h)
  | .vStr _, .vDict _ => .isFalse (fun h => Val.noConfusion h)
  | .vInt _, .vNone => .isFalse (fun h => Val.noConfusion h)
  | .vInt _, .vStr _ => .isFalse (fun h => Val.noConfusion h)
  | .vInt _, .vBool _ => .isFalse (fun h => Val.noConfusion h)
  | .vInt _, .vList _ => .isFalse (fun h => Val.noConfusion h)
  | .vInt _, .vDict _ => .isFalse (fun h => Val.noConfusion h)
  | .vBool _, .vNone => .isFalse (fun h => Val.noConfusion h)
  | .vBool _, .vStr _ => .isFalse (fun h => Val.noConfusion h)
  | .vBool _, .vInt _ => .isFalse (fun h => Val.noConfusion h)
  | .vBool _, .vList _ => .isFalse (fun h => Val.noConfusion h)
  | .vBool _, .vDict _ => .isFalse (fun h => Val.noConfusion h)
  | .vList _, .vNone => .isFalse (fun h => Val.noConfusion h)
  | .vList _, .vStr _ => .isFalse (fun h => Val.noConfusion h)
  | .vList _, .vInt _ => .isFalse (fun h => Val.noConfusion h)
  | .vList _, .vBool _ => .isFalse (fun h => Val.noConfusion h)
  | .vList _, .vDict _ => .isFalse (fun h => Val.noConfusion h)
  | .vDict _, .vNone => .isFalse (fun h => Val.noConfusion h)
  | .vDict _, .vStr _ => .isFalse (fun h => Val.noConfusion h)
  | .vDict _, .vInt _ => .isFalse (fun h => Val.noConfusion h)
  | .vDict _, .vBool _ => .isFalse (fun h => Val.noConfusion h)
  | .vDict _, .vList _ => .isFalse (fun h => Val.noConfusion h)

/-- Decidable equality on lists of `Val`. -/
def Val.decEqList : (xs ys : List Val) → Decidable (xs = ys)
  | [], [] => .isTrue rfl
  | [], _ :: _ => .isFalse (fun h => List.noConfusion h)
  | _ :: _, [] => .isFalse (fun h => List.noConfusion h)
  | x :: xs, y :: ys =>
    match Val.decEq x y with
    | .isFalse h => .isFalse (fun hv => h (List.cons.inj hv).1)
    | .isTrue h1 =>
      match Val.decEqList xs ys with
      | .isTrue h2 => .isTrue (by rw [h1, h2])
      | .isFalse h2 => .isFalse (fun hv => h2 (List.cons.inj hv).2)

/-- Decidable equality on string-keyed association lists of `Val`. -/
def Val.decEqDict : (xs ys : List (String × Val)) → Decidable (xs = ys)
  | [], [] => .isTrue rfl
  | [], _ :: _ => .isFalse (fun h => List.noConfusion h)
  | _ :: _, [] => .isFalse (fun h => List.noConfusion h)
  | (k₁, v₁) :: xs, (k₂, v₂) :: ys =>
    if hk : k₁ = k₂ then
      match Val.decEq v₁ v₂ with
      | .isFalse h => .isFalse (fun hv => h (congrArg Prod.snd (List.cons.inj hv).1))
      | .isTrue h1 =>
        match Val.decEqDict xs ys with
        | .isTrue h2 => .isTrue (by rw [hk, h1, h2])
        | .isFalse h2 => .isFalse (fun hv => h2 (List.cons.inj hv).2)
    else .isFalse (fun hv => hk (congrArg Prod.fst (List.cons.inj hv).1))

end

instance : DecidableEq Val := Val.decEq

/-- Python truthiness (`bool(v)`), used by `if not entries`. -/
def Val.truthy : Val → Bool
  | .vNone => false
  | .vStr s => !s.isEmpty
  | .vInt n => decide (n ≠ 0)
  | .vBool b => b
  | .vList xs => !xs.isEmpty
  | .vDict kvs => !kvs.isEmpty

/-- Python `isinstance(v, list)`. -/
def Val.isList : Val → Bool
  | .vList _ => true
  | _ => false

/-- Python `isinstance(v, dict)`. -/
def Val.isDict : Val → Bool
  | .vDict _ => true
  | _ => false

/-- Python `dict` lookup (keys are unique in a Python dict, so the first
binding wins). Returns `none` when the key is absent. -/
def dictGet (kvs : List (String × Val)) (k : String) : Option Val :=
  (kvs.find? (fun p => p.1 == k)).map (fun p => p.2)

/-- The failures the program can raise: the four `ValueError`s of the
source (distinguished here by kind, carrying the data interpolated into
their messages), Python's `KeyError` from `entry["id"]`, and Python's
`TypeError` from concatenating `BASE_URL` with a non-string. -/
inductive Err where
  | invalidResponse : Err
  | emptyResult : String → Err
  | malformedEntry : Err
  | invalidPath : String → Err
  | keyError : String → Err
  | typeError : Err
deriving DecidableEq, Repr

/-- The loop of `get_all_video_ids_from_channel`: for each entry, raise
`MalformedEntry` if it is not a dict, otherwise append `entry["id"]`
(raising `KeyError` when the key is absent). No check is made on the shape
of the value stored under `"id"`. -/
def extract_ids : List Val → Except Err (List Val)
  | [] => .ok []
  | entry :: rest =>
    match entry with
    | .vDict kvs =>
      match dictGet kvs "id" with
      | some v => (extract_ids rest).map (fun ids => v :: ids)
      | none => .error (.keyError "id")
    | _ => .error .malformedEntry

/-- The remote lister `get_all_video_ids_from_channel`, as a function of the external
extraction result `info`. Raises `InvalidResponse` when `info` is not a
dict; raises `EmptyResult` when `info.get("entries")` is falsy or not a
list (`if not entries or not isinstance(entries, list)`); otherwise
collects the entries' `"id"` values and returns them as a set
(modelled as a deduplicated list). -/
def get_all_video_ids_from_channel (channelname : String) (info : Val) :
    Except Err (List Val) :=
  match info with
  | .vDict kvs =>
    match (dictGet kvs "entries").getD .vNone with
    | .vList es =>
      if es.isEmpty then .error (.emptyResult channelname)
      else (extract_ids es).map (fun ids => ids.dedup)
    | _ => .error (.emptyResult channelname)
  | _ => .error .invalidResponse

/-- Attempt of the regex `\[(.{11})\]` to match at the head of `cs`
(Python `re`: `.` matches any character except a newline). On success the
captured group — the 11 characters between the brackets — is returned. -/
def matchBracketAt : List Char → Option (List Char)
  | [] => none
  | c :: rest =>
    let mid := rest.take 11
    if c = '[' ∧ mid.length = 11 ∧ rest.get? 11 = some ']' ∧ mid.all (fun x => x ≠ '\n')
    then some mid else none

/-- Python `re.search` scanning: try the pattern at each position from the left,
returning the captured group of the first (leftmost) match. -/
def searchFrom : List Char → Option (List Char)
  | [] => none
  | c :: rest =>
    match matchBracketAt (c :: rest) with
    | some m => some m
    | none => searchFrom rest

/-- The search `VIDEO_ID_PATTERN.search(s)` followed by `.group(1)`:
the first bracketed 11-character run in `s`, if any. -/
def VIDEO_ID_PATTERN_search (s : String) : Option String :=
  (searchFrom s.data).map (fun cs => String.mk cs)

/-- The captured group of the pattern at position `i` of `s`
(`none` when the pattern does not match starting at position `i`). -/
def matchPos (s : String) (i : Nat) : Option (List Char) :=
  matchBracketAt (s.data.drop i)

/-- A local directory as the program observes it: the path (rendered as
text), whether `dirpath.is_dir()` holds, and the path texts `str(file)` of
the immediate entries produced by `dirpath.glob("*")`. -/
structure LocalDir where
  path : String
  is_dir : Bool
  entries : List String
deriving DecidableEq, Repr

/-- The loop body of `get_all_video_ids_from_path` for one entry's path
text: `continue` (yield nothing) when the pattern does not match, and skip
a falsy (empty) captured group via `if video_id:`; otherwise yield the
captured group. -/
def path_entry_id (file : String) : Option String :=
  match VIDEO_ID_PATTERN_search file with
  | none => none
  | some video_id => if !video_id.isEmpty then some video_id else none

/-- The local lister `get_all_video_ids_from_path`: raise `InvalidPath` unless the path is
a directory; otherwise collect the entries' extracted identifiers and
return them as a set. -/
def get_all_video_ids_from_path (dirpath : LocalDir) : Except Err (List String) :=
  if !dirpath.is_dir then .error (.invalidPath dirpath.path)
  else .ok ((dirpath.entries.filterMap path_entry_id).dedup)

/-- The diff computer `get_all_video_ids_not_locally_available`: query the channel first,
then the local directory, and return the set difference
`channel_ids.difference(local_ids)`. Failures of either step propagate. -/
def get_all_video_ids_not_locally_available (channelname : String) (info : Val)
    (localpath : LocalDir) : Except Err (List Val) :=
  match get_all_video_ids_from_channel channelname info with
  | .error e => .error e
  | .ok channel_ids =>
    match get_all_video_ids_from_path localpath with
    | .error e => .error e
    | .ok local_ids =>
      .ok (channel_ids.filter (fun v => !decide (v ∈ local_ids.map Val.vStr)))

/-- The fixed prefix `BASE_URL`. -/
def BASE_URL : String := "https://www.youtube.com/watch?v="

/-- The URL list comprehension `[BASE_URL + video_id for video_id in missing]`.
Concatenating `BASE_URL` with a non-string raises `TypeError`. -/
def build_urls : List Val → Except Err (List String)
  | [] => .ok []
  | .vStr video_id :: rest =>
    (build_urls rest).map (fun us => (BASE_URL ++ video_id) :: us)
  | _ :: _ => .error .typeError

/-- The `FFmpegMetadata` postprocessor configuration built by
`download_missing_videos`. -/
structure FFmpegMetadataPP where
  key : String
  add_chapters : Bool
  add_metadata : Bool
  add_infojson : String
deriving DecidableEq, Repr

/-- The `ydl_opts` dictionary: the resolved output home directory and the
postprocessor list. -/
structure YdlOpts where
  paths_home : String
  postprocessors : List FFmpegMetadataPP
deriving DecidableEq, Repr

/-- Observable effects of one `download_missing_videos` invocation:
the URL list it builds, the count it prints (`Downloading N missing
videos`), the options it constructs, the dry-run report
(`Would download: urls`) when taken, and the calls made to the external
download collaborator (`ydl.download(urls)`) with their configuration. -/
structure DownloadRun where
  urls : List String
  count_reported : Nat
  ydl_opts : YdlOpts
  would_download_report : Option (List String)
  download_calls : List (YdlOpts × List String)
deriving DecidableEq, Repr

/-- The downloader `download_missing_videos`: resolve `outpath` (defaulting to
`localpath`), compute the missing IDs and their URLs, report the count,
build `ydl_opts`, then either report the URLs (dry run) or call the
download collaborator once with them. -/
def download_missing_videos (channelname : String) (info : Val)
    (localpath : LocalDir) (outpath : Option String) (dry_run : Bool) :
    Except Err DownloadRun :=
  let outpath := match outpath with
    | none => localpath.path
    | some p => p
  match get_all_video_ids_not_locally_available channelname info localpath with
  | .error e => .error e
  | .ok missing =>
    match build_urls missing with
    | .error e => .error e
    | .ok urls =>
      let ydl_opts : YdlOpts :=
        { paths_home := outpath
          postprocessors := [{ key := "FFmpegMetadata"
                               add_chapters := true
                               add_metadata := true
                               add_infojson := "if_exists" }] }
      if dry_run then
        .ok { urls := urls
              count_reported := urls.length
              ydl_opts := ydl_opts
              would_download_report := some urls
              download_calls := [] }
      else
        .ok { urls := urls
              count_reported := urls.length
              ydl_opts := ydl_opts
              would_download_report := none
              download_calls := [(ydl_opts, urls)] }

/-! ## Helper lemmas -/

/-- Mapping over an `Except` neither introduces nor changes errors. -/
theorem except_map_error_iff {α β : Type} (f : α → β) (x : Except Err α) (e : Err) :
    x.map f = .error e ↔ x = .error e := by
  cases x <;> simp [Except.map]

/-- The only failures of the entry loop are `MalformedEntry` and the
`KeyError` on `"id"`. -/
theorem extract_ids_error_shape (es : List Val) (e : Err)
    (h : extract_ids es = .error e) :
    e = .malformedEntry ∨ e = .keyError "id" := by
  induction es with
  | nil => simp [extract_ids] at h
  | cons x xs ih =>
    cases x <;> simp only [extract_ids] at h
    case vDict kvs =>
      cases hid : dictGet kvs "id" with
      | none => rw [hid] at h; exact Or.inr (Except.error.inj h).symm
      | some v =>
        rw [hid] at h
        exact ih ((except_map_error_iff _ _ _).mp h)
    all_goals exact Or.inl (Except.error.inj h).symm

/-- A prefix of entries that are all dicts carrying an `"id"` key cannot
change which failure the entry loop raises on the rest. -/
theorem extract_ids_append_good (pre rest : List Val)
    (h : ∀ x ∈ pre, ∃ m, x = Val.vDict m ∧ (dictGet m "id").isSome)
    (e : Err) (he : extract_ids rest = .error e) :
    extract_ids (pre ++ rest) = .error e := by
  induction pre with
  | nil => simpa
  | cons a pre ih =>
    obtain ⟨m, rfl, hm⟩ := h a (by simp)
    obtain ⟨v, hv⟩ := Option.isSome_iff_exists.mp hm
    simp only [List.cons_append, extract_ids, hv]
    exact (except_map_error_iff _ _ _).mpr (ih (fun x hx => h x (by simp [hx])))

/-- A `MalformedEntry` failure of the entry loop pinpoints a non-dict
entry. -/
theorem extract_ids_malformed_mem (es : List Val)
    (h : extract_ids es = .error .malformedEntry) :
    ∃ x ∈ es, x.isDict = false := by
  induction es with
  | nil => simp [extract_ids] at h
  | cons x xs ih =>
    cases x <;> simp only [extract_ids] at h
    case vDict kvs =>
      cases hid : dictGet kvs "id" with
      | none => rw [hid] at h; exact absurd (Except.error.inj h) (by simp)
      | some v =>
        rw [hid] at h
        obtain ⟨y, hy, hyd⟩ := ih ((except_map_error_iff _ _ _).mp h)
        exact ⟨y, by simp [hy], hyd⟩
    all_goals exact ⟨_, List.mem_cons_self _ _, rfl⟩

/-- A successful match of the fixed-width pattern always captures exactly
11 characters. -/
theorem matchBracketAt_length {cs m : List Char} (h : matchBracketAt cs = some m) :
    m.length = 11 := by
  cases cs with
  | nil => simp [matchBracketAt] at h
  | cons c rest =>
    simp only [matchBracketAt] at h
    split at h
    · rename_i hc
      obtain rfl := Option.some.inj h
      exact hc.2.1
    · simp at h

/-- The scan result is one of the per-position match results. -/
theorem searchFrom_length {cs m : List Char} (h : searchFrom cs = some m) :
    m.length = 11 := by
  induction cs with
  | nil => simp [searchFrom] at h
  | cons c rest ih =>
    simp only [searchFrom] at h
    cases hm : matchBracketAt (c :: rest) with
    | some m' => rw [hm] at h; exact (Option.some.inj h) ▸ matchBracketAt_length hm
    | none => rw [hm] at h; exact ih h

/-- If the pattern matches at position `i` and at no earlier position,
the left-to-right scan returns the match at `i`. -/
theorem searchFrom_of_first {cs m : List Char} (i : Nat)
    (hi : matchBracketAt (cs.drop i) = some m)
    (hfirst : ∀ j, j < i → matchBracketAt (cs.drop j) = none) :
    searchFrom cs = some m := by
  induction cs generalizing i with
  | nil => rw [List.drop_nil] at hi; simp [matchBracketAt] at hi
  | cons c rest ih =>
    cases i with
    | zero =>
      rw [List.drop_zero] at hi
      simp [searchFrom, hi]
    | succ i =>
      have h0 : matchBracketAt (c :: rest) = none := by
        have := hfirst 0 (Nat.succ_pos i)
        rwa [List.drop_zero] at this
      rw [List.drop_succ_cons] at hi
      simp only [searchFrom, h0]
      exact ih i hi (fun j hj => by
        have := hfirst (j + 1) (by omega)
        rwa [List.drop_succ_cons] at this)

/-- A successful `VIDEO_ID_PATTERN` search captures an 11-character
identifier. -/
theorem search_some_length {file v : String}
    (h : VIDEO_ID_PATTERN_search file = some v) : v.length = 11 := by
  unfold VIDEO_ID_PATTERN_search at h
  obtain ⟨m, hm, rfl⟩ := Option.map_eq_some'.mp h
  exact searchFrom_length hm

/-- The emptiness test on the captured group never fires: the loop body
returns exactly the search result. -/
theorem path_entry_id_eq_search (file : String) :
    path_entry_id file = VIDEO_ID_PATTERN_search file := by
  unfold path_entry_id
  cases hs : VIDEO_ID_PATTERN_search file with
  | none => rfl
  | some v =>
    have hl : v.length = 11 := search_some_length hs
    have hne : v.isEmpty = false := by
      cases hv : v.isEmpty
      · rfl
      · rw [String.isEmpty_iff] at hv; subst hv; simp at hl
    simp [hne]

/-- Membership in the local lister's result set, characterised entrywise. -/
theorem mem_path_ids {d : LocalDir} {S : List String}
    (h : get_all_video_ids_from_path d = .ok S) :
    ∀ v, v ∈ S ↔ ∃ file ∈ d.entries, path_entry_id file = some v := by
  intro v
  unfold get_all_video_ids_from_path at h
  split at h
  · exact absurd h (by simp)
  · obtain rfl := Except.ok.inj h
    simp [List.mem_dedup, List.mem_filterMap]

/-- On a list of string values the URL construction succeeds, and the
resulting URLs are exactly the base URL extended by the listed IDs. -/
theorem build_urls_of_strings (l : List Val) (h : ∀ x ∈ l, ∃ s, x = Val.vStr s) :
    ∃ us, build_urls l = .ok us ∧
      ∀ u, u ∈ us ↔ ∃ s, Val.vStr s ∈ l ∧ u = BASE_URL ++ s := by
  induction l with
  | nil => exact ⟨[], rfl, by simp⟩
  | cons x xs ih =>
    obtain ⟨s, rfl⟩ := h x (by simp)
    obtain ⟨us, hus, hmem⟩ := ih (fun y hy => h y (by simp [hy]))
    refine ⟨(BASE_URL ++ s) :: us, ?_, ?_⟩
    · simp only [build_urls, hus]
      rfl
    · intro u
      simp only [List.mem_cons, hmem]
      constructor
      · rintro (rfl | ⟨t, ht, rfl⟩)
        · exact ⟨s, by simp⟩
        · exact ⟨t, by simp [ht]⟩
      · rintro ⟨t, ht, rfl⟩
        rcases ht with hts | htxs
        · exact Or.inl (by rw [Val.vStr.inj hts])
        · exact Or.inr ⟨t, htxs, rfl⟩

/-! ## Claims -/

/-- C1: for every channel listing and local directory on which the diff
computer succeeds, its result is a subset of the remote lister's ID set
and disjoint from the local lister's ID set. -/
theorem C1_diff_subset_disjoint (channelname : String) (info : Val) (d : LocalDir)
    (diffS chS : List Val) (lS : List String)
    (hdiff : get_all_video_ids_not_locally_available channelname info d = .ok diffS)
    (hch : get_all_video_ids_from_channel channelname info = .ok chS)
    (hl : get_all_video_ids_from_path d = .ok lS) :
    (∀ x ∈ diffS, x ∈ chS) ∧ (∀ x ∈ diffS, x ∉ lS.map Val.vStr) := by
  unfold get_all_video_ids_not_locally_available at hdiff
  rw [hch, hl] at hdiff
  obtain rfl := Except.ok.inj hdiff
  constructor
  · intro x hx
    exact (List.mem_filter.mp hx).1
  · intro x hx
    have hp := (List.mem_filter.mp hx).2
    simpa using hp

/-- Witness for C1 on a concrete channel listing and directory. -/
theorem C1_diff_subset_disjoint_witness :
    (∀ x ∈ [Val.vStr "bbbbbbbbbbb"],
       x ∈ [Val.vStr "aaaaaaaaaaa", Val.vStr "bbbbbbbbbbb"]) ∧
    (∀ x ∈ [Val.vStr "bbbbbbbbbbb"], x ∉ ["aaaaaaaaaaa"].map Val.vStr) :=
  C1_diff_subset_disjoint "c"
    (.vDict [("entries", .vList [.vDict [("id", .vStr "aaaaaaaaaaa")],
                                 .vDict [("id", .vStr "bbbbbbbbbbb")]])])
    { path := "/videos", is_dir := true,
      entries := ["/videos/My Video [aaaaaaaaaaa].mp4"] }
    [Val.vStr "bbbbbbbbbbb"] [Val.vStr "aaaaaaaaaaa", Val.vStr "bbbbbbbbbbb"]
    ["aaaaaaaaaaa"] rfl rfl rfl

/-- C2: when the remote ID set is `{aaaaaaaaaaa, bbbbbbbbbbb}` and the
local ID set is `{aaaaaaaaaaa}`, the diff is `{bbbbbbbbbbb}` and the
downloader builds exactly the URL for `bbbbbbbbbbb`. -/
theorem C2_concrete_diff_and_urls (channelname : String) (info : Val) (d : LocalDir)
    (chS : List Val) (lS : List String) (outpath : Option String) (dry_run : Bool)
    (hch : get_all_video_ids_from_channel channelname info = .ok chS)
    (hl : get_all_video_ids_from_path d = .ok lS)
    (hchS : ∀ x, x ∈ chS ↔ (x = .vStr "aaaaaaaaaaa" ∨ x = .vStr "bbbbbbbbbbb"))
    (hlS : ∀ s, s ∈ lS ↔ s = "aaaaaaaaaaa") :
    (∃ diffS, get_all_video_ids_not_locally_available channelname info d = .ok diffS ∧
       ∀ x, x ∈ diffS ↔ x = Val.vStr "bbbbbbbbbbb") ∧
    (∃ run, download_missing_videos channelname info d outpath dry_run = .ok run ∧
       ∀ u, u ∈ run.urls ↔ u = "https://www.youtube.com/watch?v=bbbbbbbbbbb") := by
  have hdiff : get_all_video_ids_not_locally_available channelname info d =
      .ok (chS.filter (fun v => !decide (v ∈ lS.map Val.vStr))) := by
    unfold get_all_video_ids_not_locally_available
    rw [hch, hl]
  have hmem : ∀ x, x ∈ chS.filter (fun v => !decide (v ∈ lS.map Val.vStr)) ↔
      x = Val.vStr "bbbbbbbbbbb" := by
    intro x
    rw [List.mem_filter]
    constructor
    · rintro ⟨hx, hp⟩
      rcases (hchS x).mp hx with rfl | rfl
      · exfalso
        have hmem' : Val.vStr "aaaaaaaaaaa" ∈ lS.map Val.vStr :=
          List.mem_map_of_mem _ ((hlS _).mpr rfl)
        simp [hmem'] at hp
      · rfl
    · rintro rfl
      refine ⟨(hchS _).mpr (Or.inr rfl), ?_⟩
      simp only [Bool.not_eq_true', decide_eq_false_iff_not]
      intro hc
      obtain ⟨s, hs, hsv⟩ := List.mem_map.mp hc
      have : s = "bbbbbbbbbbb" := Val.vStr.inj hsv
      rw [this] at hs
      exact absurd ((hlS _).mp hs) (by decide)
  refine ⟨⟨_, hdiff, hmem⟩, ?_⟩
  have hstr : ∀ x ∈ chS.filter (fun v => !decide (v ∈ lS.map Val.vStr)),
      ∃ s, x = Val.vStr s := by
    intro x hx
    rcases (hmem x).mp hx with rfl
    exact ⟨_, rfl⟩
  obtain ⟨us, hus, humem⟩ := build_urls_of_strings _ hstr
  have hurl : ∀ u, u ∈ us ↔ u = "https://www.youtube.com/watch?v=bbbbbbbbbbb" := by
    intro u
    rw [humem]
    constructor
    · rintro ⟨s, hsmem, rfl⟩
      have : s = "bbbbbbbbbbb" := Val.vStr.inj ((hmem _).mp hsmem)
      rw [this]
      decide
    · rintro rfl
      refine ⟨"bbbbbbbbbbb", (hmem _).mpr rfl, by decide⟩
  unfold download_missing_videos
  simp only [hdiff, hus]
  cases dry_run
  · exact ⟨_, rfl, hurl⟩
  · exact ⟨_, rfl, hurl⟩

/-- Witness for C2 on a concrete channel listing and directory. -/
theorem C2_concrete_diff_and_urls_witness :
    (∃ diffS, get_all_video_ids_not_locally_available "c"
        (.vDict [("entries", .vList [.vDict [("id", .vStr "aaaaaaaaaaa")],
                                     .vDict [("id", .vStr "bbbbbbbbbbb")]])])
        { path := "/videos", is_dir := true,
          entries := ["/videos/My Video [aaaaaaaaaaa].mp4"] } = .ok diffS ∧
       ∀ x, x ∈ diffS ↔ x = Val.vStr "bbbbbbbbbbb") ∧
    (∃ run, download_missing_videos "c"
        (.vDict [("entries", .vList [.vDict [("id", .vStr "aaaaaaaaaaa")],
                                     .vDict [("id", .vStr "bbbbbbbbbbb")]])])
        { path := "/videos", is_dir := true,
          entries := ["/videos/My Video [aaaaaaaaaaa].mp4"] } none true = .ok run ∧
       ∀ u, u ∈ run.urls ↔ u = "https://www.youtube.com/watch?v=bbbbbbbbbbb") :=
  C2_concrete_diff_and_urls "c"
    (.vDict [("entries", .vList [.vDict [("id", .vStr "aaaaaaaaaaa")],
                                 .vDict [("id", .vStr "bbbbbbbbbbb")]])])
    { path := "/videos", is_dir := true,
      entries := ["/videos/My Video [aaaaaaaaaaa].mp4"] }
    [Val.vStr "aaaaaaaaaaa", Val.vStr "bbbbbbbbbbb"] ["aaaaaaaaaaa"] none true
    rfl rfl (fun x => by simp) (fun s => by simp)

/-- C3: the example filename yields `dQw4w9WgXcQ` and that identifier
appears in the local lister's set; an entry whose path text has no
bracketed 11-character run contributes nothing and causes no failure. -/
theorem C3_pattern_extraction_and_skip :
    (VIDEO_ID_PATTERN_search "My Video [dQw4w9WgXcQ].mp4" = some "dQw4w9WgXcQ") ∧
    (∀ d : LocalDir, d.is_dir = true → "My Video [dQw4w9WgXcQ].mp4" ∈ d.entries →
       ∃ S, get_all_video_ids_from_path d = .ok S ∧ "dQw4w9WgXcQ" ∈ S) ∧
    (∀ (d : LocalDir) (pre post : List String) (file : String), d.is_dir = true →
       d.entries = pre ++ file :: post → VIDEO_ID_PATTERN_search file = none →
       get_all_video_ids_from_path d =
         get_all_video_ids_from_path { d with entries := pre ++ post } ∧
       ∃ S, get_all_video_ids_from_path d = .ok S) := by
  refine ⟨by decide, ?_, ?_⟩
  · intro d hd hf
    have hok : get_all_video_ids_from_path d =
        .ok ((d.entries.filterMap path_entry_id).dedup) := by
      unfold get_all_video_ids_from_path
      rw [hd]
      rfl
    exact ⟨_, hok, (mem_path_ids hok _).mpr ⟨_, hf, by decide⟩⟩
  · intro d pre post file hd hent hnone
    have hpid : path_entry_id file = none := by
      rw [path_entry_id_eq_search, hnone]
    constructor
    · unfold get_all_video_ids_from_path
      simp [hd, hent, List.filterMap_append, List.filterMap_cons, hpid]
    · refine ⟨(d.entries.filterMap path_entry_id).dedup, ?_⟩
      unfold get_all_video_ids_from_path
      rw [hd]
      rfl

/-- Witness for C3 on a concrete directory. -/
theorem C3_pattern_extraction_and_skip_witness :
    (∃ S, get_all_video_ids_from_path
        { path := "/v", is_dir := true,
          entries := ["My Video [dQw4w9WgXcQ].mp4"] } = .ok S ∧ "dQw4w9WgXcQ" ∈ S) ∧
    (get_all_video_ids_from_path
        { path := "/v", is_dir := true,
          entries := ["My Video [dQw4w9WgXcQ].mp4", "noid.mp4"] } =
       get_all_video_ids_from_path
        { path := "/v", is_dir := true,
          entries := ["My Video [dQw4w9WgXcQ].mp4"] } ∧
     ∃ S, get_all_video_ids_from_path
        { path := "/v", is_dir := true,
          entries := ["My Video [dQw4w9WgXcQ].mp4", "noid.mp4"] } = .ok S) :=
  ⟨C3_pattern_extraction_and_skip.2.1
      { path := "/v", is_dir := true, entries := ["My Video [dQw4w9WgXcQ].mp4"] }
      rfl (by simp),
   C3_pattern_extraction_and_skip.2.2
      { path := "/v", is_dir := true,
        entries := ["My Video [dQw4w9WgXcQ].mp4", "noid.mp4"] }
      ["My Video [dQw4w9WgXcQ].mp4"] [] "noid.mp4" rfl rfl (by decide)⟩

/-- C6: when the pattern matches at position `i` and at a later position
`j` (two bracketed 11-character runs), and at no position before `i`, the
local lister uses the match at `i` — the leftmost one — as the entry's
identifier. -/
theorem C6_leftmost_match (d : LocalDir) (hd : d.is_dir = true) (file : String)
    (hf : file ∈ d.entries) (i j : Nat) (v w : List Char) (hij : i < j)
    (hi : matchPos file i = some v) (hj : matchPos file j = some w)
    (hfirst : ∀ k, k < i → matchPos file k = none) :
    VIDEO_ID_PATTERN_search file = some (String.mk v) ∧
    ∃ S, get_all_video_ids_from_path d = .ok S ∧ String.mk v ∈ S := by
  unfold matchPos at hi hfirst
  have hsearch : VIDEO_ID_PATTERN_search file = some (String.mk v) := by
    unfold VIDEO_ID_PATTERN_search
    rw [searchFrom_of_first i hi hfirst]
    rfl
  have hok : get_all_video_ids_from_path d =
      .ok ((d.entries.filterMap path_entry_id).dedup) := by
    unfold get_all_video_ids_from_path
    rw [hd]
    rfl
  refine ⟨hsearch, _, hok, (mem_path_ids hok _).mpr ⟨file, hf, ?_⟩⟩
  rw [path_entry_id_eq_search, hsearch]

/-- Witness for C6 on a path text containing two bracketed runs. -/
theorem C6_leftmost_match_witness :
    VIDEO_ID_PATTERN_search "[aaaaaaaaaaa][bbbbbbbbbbb]" =
      some (String.mk ['a', 'a', 'a', 'a', 'a', 'a', 'a', 'a', 'a', 'a', 'a']) ∧
    ∃ S, get_all_video_ids_from_path
        { path := "/v", is_dir := true, entries := ["[aaaaaaaaaaa][bbbbbbbbbbb]"] } =
      .ok S ∧ String.mk ['a', 'a', 'a', 'a', 'a', 'a', 'a', 'a', 'a', 'a', 'a'] ∈ S :=
  C6_leftmost_match
    { path := "/v", is_dir := true, entries := ["[aaaaaaaaaaa][bbbbbbbbbbb]"] }
    rfl "[aaaaaaaaaaa][bbbbbbbbbbb]" (by simp) 0 13
    ['a', 'a', 'a', 'a', 'a', 'a', 'a', 'a', 'a', 'a', 'a']
    ['b', 'b', 'b', 'b', 'b', 'b', 'b', 'b', 'b', 'b', 'b']
    (by omega) (by decide) (by decide) (fun k hk => absurd hk (Nat.not_lt_zero k))

/-- C9: every identifier returned by the local lister has length exactly
11, and the loop body never takes the empty-captured-group skip branch:
it is exactly the pattern search. -/
theorem C9_local_ids_length (d : LocalDir) (S : List String)
    (h : get_all_video_ids_from_path d = .ok S) :
    (∀ v ∈ S, v.length = 11) ∧
    (∀ file, path_entry_id file = VIDEO_ID_PATTERN_search file) := by
  refine ⟨?_, path_entry_id_eq_search⟩
  intro v hv
  obtain ⟨file, -, hfid⟩ := (mem_path_ids h v).mp hv
  rw [path_entry_id_eq_search] at hfid
  exact search_some_length hfid

/-- Witness for C9 on a concrete directory. -/
theorem C9_local_ids_length_witness :
    (∀ v ∈ ["dQw4w9WgXcQ"], v.length = 11) ∧
    (∀ file, path_entry_id file = VIDEO_ID_PATTERN_search file) :=
  C9_local_ids_length
    { path := "/v", is_dir := true, entries := ["My Video [dQw4w9WgXcQ].mp4"] }
    ["dQw4w9WgXcQ"] rfl

/-- C5: whenever the downloader completes, the reported count is the
number of candidate URLs (reported in both modes, before branching), and
in dry-run mode the full URL list is reported and the external download
collaborator is called zero times. -/
theorem C5_dry_run_reports_no_downloads (channelname : String) (info : Val)
    (d : LocalDir) (outpath : Option String) (dry_run : Bool) (run : DownloadRun)
    (h : download_missing_videos channelname info d outpath dry_run = .ok run) :
    run.count_reported = run.urls.length ∧
    (dry_run = true → run.would_download_report = some run.urls ∧
       run.download_calls = []) := by
  unfold download_missing_videos at h
  cases hd : get_all_video_ids_not_locally_available channelname info d with
  | error e => simp only [hd] at h; exact absurd h (by simp)
  | ok missing =>
    simp only [hd] at h
    cases hu : build_urls missing with
    | error e => simp only [hu] at h; exact absurd h (by simp)
    | ok urls =>
      simp only [hu] at h
      cases dry_run
      · obtain rfl := Except.ok.inj h
        exact ⟨rfl, by simp⟩
      · obtain rfl := Except.ok.inj h
        exact ⟨rfl, fun _ => ⟨rfl, rfl⟩⟩

/-- Witness for C5 on a concrete dry run. -/
theorem C5_dry_run_reports_no_downloads_witness :
    ({ urls := ["https://www.youtube.com/watch?v=aaaaaaaaaaa"]
       count_reported := 1
       ydl_opts := { paths_home := "/v"
                     postprocessors := [{ key := "FFmpegMetadata"
                                          add_chapters := true
                                          add_metadata := true
                                          add_infojson := "if_exists" }] }
       would_download_report := some ["https://www.youtube.com/watch?v=aaaaaaaaaaa"]
       download_calls := [] : DownloadRun }).count_reported =
      ({ urls := ["https://www.youtube.com/watch?v=aaaaaaaaaaa"]
         count_reported := 1
         ydl_opts := { paths_home := "/v"
                       postprocessors := [{ key := "FFmpegMetadata"
                                            add_chapters := true
                                            add_metadata := true
                                            add_infojson := "if_exists" }] }
         would_download_report := some ["https://www.youtube.com/watch?v=aaaaaaaaaaa"]
         download_calls := [] : DownloadRun }).urls.length ∧
    (true = true →
      ({ urls := ["https://www.youtube.com/watch?v=aaaaaaaaaaa"]
         count_reported := 1
         ydl_opts := { paths_home := "/v"
                       postprocessors := [{ key := "FFmpegMetadata"
                                            add_chapters := true
                                            add_metadata := true
                                            add_infojson := "if_exists" }] }
         would_download_report := some ["https://www.youtube.com/watch?v=aaaaaaaaaaa"]
         download_calls := [] : DownloadRun }).would_download_report =
        some ({ urls := ["https://www.youtube.com/watch?v=aaaaaaaaaaa"]
                count_reported := 1
                ydl_opts := { paths_home := "/v"
                              postprocessors := [{ key := "FFmpegMetadata"
                                                   add_chapters := true
                                                   add_metadata := true
                                                   add_infojson := "if_exists" }] }
                would_download_report :=
                  some ["https://www.youtube.com/watch?v=aaaaaaaaaaa"]
                download_calls := [] : DownloadRun }).urls ∧
      ({ urls := ["https://www.youtube.com/watch?v=aaaaaaaaaaa"]
         count_reported := 1
         ydl_opts := { paths_home := "/v"
                       postprocessors := [{ key := "FFmpegMetadata"
                                            add_chapters := true
                                            add_metadata := true
                                            add_infojson := "if_exists" }] }
         would_download_report := some ["https://www.youtube.com/watch?v=aaaaaaaaaaa"]
         download_calls := [] : DownloadRun }).download_calls = []) :=
  C5_dry_run_reports_no_downloads "c"
    (.vDict [("entries", .vList [.vDict [("id", .vStr "aaaaaaaaaaa")]])])
    { path := "/v", is_dir := true, entries := [] } none true _ rfl

/-- C7: when no output directory is supplied, the configuration handed to
the download collaborator resolves its home directory to the local
directory's path. -/
theorem C7_default_outpath (channelname : String) (info : Val) (d : LocalDir)
    (dry_run : Bool) (run : DownloadRun)
    (h : download_missing_videos channelname info d none dry_run = .ok run) :
    run.ydl_opts.paths_home = d.path ∧
    ∀ c ∈ run.download_calls, c.1.paths_home = d.path := by
  unfold download_missing_videos at h
  cases hd : get_all_video_ids_not_locally_available channelname info d with
  | error e => simp only [hd] at h; exact absurd h (by simp)
  | ok missing =>
    simp only [hd] at h
    cases hu : build_urls missing with
    | error e => simp only [hu] at h; exact absurd h (by simp)
    | ok urls =>
      simp only [hu] at h
      cases dry_run
      · obtain rfl := Except.ok.inj h
        refine ⟨rfl, ?_⟩
        intro c hc
        obtain rfl := List.mem_singleton.mp hc
        rfl
      · obtain rfl := Except.ok.inj h
        exact ⟨rfl, by simp⟩

/-- Witness for C7: a real (non-dry) run with no output directory
downloads into the local directory. -/
theorem C7_default_outpath_witness :
    ({ urls := ["https://www.youtube.com/watch?v=aaaaaaaaaaa"]
       count_reported := 1
       ydl_opts := { paths_home := "/v"
                     postprocessors := [{ key := "FFmpegMetadata"
                                          add_chapters := true
                                          add_metadata := true
                                          add_infojson := "if_exists" }] }
       would_download_report := none
       download_calls :=
         [({ paths_home := "/v"
             postprocessors := [{ key := "FFmpegMetadata"
                                  add_chapters := true
                                  add_metadata := true
                                  add_infojson := "if_exists" }] },
           ["https://www.youtube.com/watch?v=aaaaaaaaaaa"])] : DownloadRun }).ydl_opts.paths_home =
      "/v" ∧
    ∀ c ∈ ({ urls := ["https://www.youtube.com/watch?v=aaaaaaaaaaa"]
             count_reported := 1
             ydl_opts := { paths_home := "/v"
                           postprocessors := [{ key := "FFmpegMetadata"
                                                add_chapters := true
                                                add_metadata := true
                                                add_infojson := "if_exists" }] }
             would_download_report := none
             download_calls :=
               [({ paths_home := "/v"
                   postprocessors := [{ key := "FFmpegMetadata"
                                        add_chapters := true
                                        add_metadata := true
                                        add_infojson := "if_exists" }] },
                 ["https://www.youtube.com/watch?v=aaaaaaaaaaa"])] : DownloadRun }).download_calls,
      c.1.paths_home = "/v" :=
  C7_default_outpath "c"
    (.vDict [("entries", .vList [.vDict [("id", .vStr "aaaaaaaaaaa")]])])
    { path := "/v", is_dir := true, entries := [] } false _ rfl

/-- C8: the diff computer queries the channel first and propagates either
lister's failure unchanged; a channel failure surfaces for every local
path, valid or not, so the local path is not validated until the remote
query has completed. -/
theorem C8_propagation_order (channelname : String) (info : Val) (d : LocalDir) :
    (∀ e, get_all_video_ids_from_channel channelname info = .error e →
       get_all_video_ids_not_locally_available channelname info d = .error e) ∧
    (∀ chS e, get_all_video_ids_from_channel channelname info = .ok chS →
       get_all_video_ids_from_path d = .error e →
       get_all_video_ids_not_locally_available channelname info d = .error e) := by
  constructor
  · intro e he
    unfold get_all_video_ids_not_locally_available
    rw [he]
  · intro chS e hok hel
    unfold get_all_video_ids_not_locally_available
    rw [hok, hel]

/-- Witness for C8: a failing remote query combined with a non-directory
local path surfaces the remote failure; a good remote query with a
non-directory local path surfaces the local failure. -/
theorem C8_propagation_order_witness :
    get_all_video_ids_not_locally_available "c" (.vStr "oops")
      { path := "/nope", is_dir := false, entries := [] } =
      .error .invalidResponse ∧
    get_all_video_ids_not_locally_available "c"
      (.vDict [("entries", .vList [.vDict [("id", .vStr "aaaaaaaaaaa")]])])
      { path := "/nope", is_dir := false, entries := [] } =
      .error (.invalidPath "/nope") :=
  ⟨(C8_propagation_order "c" (.vStr "oops")
      { path := "/nope", is_dir := false, entries := [] }).1 .invalidResponse rfl,
   (C8_propagation_order "c"
      (.vDict [("entries", .vList [.vDict [("id", .vStr "aaaaaaaaaaa")]])])
      { path := "/nope", is_dir := false, entries := [] }).2
     [Val.vStr "aaaaaaaaaaa"] (.invalidPath "/nope") rfl rfl⟩

/-- C4: each validation check raises its own failure kind exactly when its
condition holds — `InvalidResponse` for a non-dict result,
`EmptyResult` for an absent/empty/non-list entries field, `MalformedEntry`
for a non-dict entry (earlier entries being well-formed), and
`InvalidPath` for a non-directory path — and in the complementary cases
the corresponding branch is not taken. -/
theorem C4_error_taxonomy :
    (∀ (ch : String) (info : Val), info.isDict = false →
       get_all_video_ids_from_channel ch info = .error .invalidResponse) ∧
    (∀ (ch : String) (info : Val), info.isDict = true →
       get_all_video_ids_from_channel ch info ≠ .error .invalidResponse) ∧
    (∀ (ch : String) (kvs : List (String × Val)),
       ((dictGet kvs "entries").getD .vNone).isList = false →
       get_all_video_ids_from_channel ch (.vDict kvs) = .error (.emptyResult ch)) ∧
    (∀ (ch : String) (kvs : List (String × Val)),
       (dictGet kvs "entries").getD .vNone = .vList [] →
       get_all_video_ids_from_channel ch (.vDict kvs) = .error (.emptyResult ch)) ∧
    (∀ (ch : String) (kvs : List (String × Val)) (es : List Val),
       (dictGet kvs "entries").getD .vNone = .vList es → es ≠ [] →
       ∀ c, get_all_video_ids_from_channel ch (.vDict kvs) ≠ .error (.emptyResult c)) ∧
    (∀ (ch : String) (kvs : List (String × Val)) (pre : List Val) (entry : Val)
       (post : List Val),
       (dictGet kvs "entries").getD .vNone = .vList (pre ++ entry :: post) →
       (∀ x ∈ pre, ∃ m, x = Val.vDict m ∧ (dictGet m "id").isSome) →
       entry.isDict = false →
       get_all_video_ids_from_channel ch (.vDict kvs) = .error .malformedEntry) ∧
    (∀ (ch : String) (kvs : List (String × Val)) (es : List Val),
       (dictGet kvs "entries").getD .vNone = .vList es →
       (∀ x ∈ es, x.isDict = true) →
       get_all_video_ids_from_channel ch (.vDict kvs) ≠ .error .malformedEntry) ∧
    (∀ d : LocalDir, d.is_dir = false →
       get_all_video_ids_from_path d = .error (.invalidPath d.path)) ∧
    (∀ d : LocalDir, d.is_dir = true →
       ∃ S, get_all_video_ids_from_path d = .ok S) := by
  refine ⟨?_, ?_, ?_, ?_, ?_, ?_, ?_, ?_, ?_⟩
  · intro ch info hnd
    cases info <;> first
      | rfl
      | exact absurd hnd (by simp [Val.isDict])
  · intro ch info hd hc
    cases info <;> simp [Val.isDict] at hd
    rename_i kvs
    simp only [get_all_video_ids_from_channel] at hc
    cases hv : (dictGet kvs "entries").getD .vNone <;> rw [hv] at hc <;>
      try exact absurd (Except.error.inj hc) (by simp)
    rename_i es
    by_cases hes : es.isEmpty <;> simp only [hes, if_true, if_false] at hc
    · exact absurd (Except.error.inj hc) (by simp)
    · rcases extract_ids_error_shape es _ ((except_map_error_iff _ _ _).mp hc) with
        h1 | h1 <;> simp at h1
  · intro ch kvs hnl
    simp only [get_all_video_ids_from_channel]
    cases hv : (dictGet kvs "entries").getD .vNone <;>
      first
        | rfl
        | simp [Val.isList, hv] at hnl
  · intro ch kvs hv
    simp only [get_all_video_ids_from_channel, hv]
    rfl
  · intro ch kvs es hv hne c hc
    have hes : es.isEmpty = false := by
      cases es
      · exact absurd rfl hne
      · rfl
    simp only [get_all_video_ids_from_channel, hv, hes, Bool.false_eq_true,
      if_false] at hc
    rcases extract_ids_error_shape es _ ((except_map_error_iff _ _ _).mp hc) with
      h1 | h1 <;> simp at h1
  · intro ch kvs pre entry post hv hpre hnd
    have hes : (pre ++ entry :: post).isEmpty = false := by
      cases pre <;> rfl
    simp only [get_all_video_ids_from_channel, hv, hes, Bool.false_eq_true,
      if_false]
    refine (except_map_error_iff _ _ _).mpr ?_
    refine extract_ids_append_good pre (entry :: post) hpre _ ?_
    cases entry
    case vDict m => simp [Val.isDict] at hnd
    all_goals rfl
  · intro ch kvs es hv hall hc
    simp only [get_all_video_ids_from_channel, hv] at hc
    by_cases hes : es.isEmpty = true <;> simp only [hes, if_true, if_false] at hc
    · exact absurd (Except.error.inj hc) (by simp)
    · obtain ⟨x, hx, hxd⟩ :=
        extract_ids_malformed_mem es ((except_map_error_iff _ _ _).mp hc)
      rw [hall x hx] at hxd
      exact absurd hxd (by simp)
  · intro d hnd
    unfold get_all_video_ids_from_path
    rw [hnd]
    rfl
  · intro d hd
    refine ⟨(d.entries.filterMap path_entry_id).dedup, ?_⟩
    unfold get_all_video_ids_from_path
    rw [hd]
    rfl

/-- Witness for C4: each failure kind observed, and each complementary
branch avoided, on concrete inputs. -/
theorem C4_error_taxonomy_witness :
    get_all_video_ids_from_channel "c" (.vStr "x") = .error .invalidResponse ∧
    get_all_video_ids_from_channel "c" (.vDict []) ≠ .error .invalidResponse ∧
    get_all_video_ids_from_channel "c" (.vDict []) = .error (.emptyResult "c") ∧
    get_all_video_ids_from_channel "c" (.vDict [("entries", .vList [])]) =
      .error (.emptyResult "c") ∧
    get_all_video_ids_from_channel "c"
      (.vDict [("entries", .vList [.vDict [("id", .vStr "aaaaaaaaaaa")]])]) ≠
      .error (.emptyResult "c") ∧
    get_all_video_ids_from_channel "c" (.vDict [("entries", .vList [.vInt 3])]) =
      .error .malformedEntry ∧
    get_all_video_ids_from_channel "c"
      (.vDict [("entries", .vList [.vDict [("id", .vStr "aaaaaaaaaaa")]])]) ≠
      .error .malformedEntry ∧
    get_all_video_ids_from_path { path := "/nope", is_dir := false, entries := [] } =
      .error (.invalidPath "/nope") ∧
    ∃ S, get_all_video_ids_from_path
      { path := "/v", is_dir := true, entries := [] } = .ok S :=
  ⟨C4_error_taxonomy.1 "c" (.vStr "x") rfl,
   C4_error_taxonomy.2.1 "c" (.vDict []) rfl,
   C4_error_taxonomy.2.2.1 "c" [] rfl,
   C4_error_taxonomy.2.2.2.1 "c" [("entries", .vList [])] rfl,
   C4_error_taxonomy.2.2.2.2.1 "c" [("entries",
      .vList [.vDict [("id", .vStr "aaaaaaaaaaa")]])]
      [.vDict [("id", .vStr "aaaaaaaaaaa")]] rfl (by simp) "c",
   C4_error_taxonomy.2.2.2.2.2.1 "c" [("entries", .vList [.vInt 3])]
      [] (.vInt 3) [] rfl (by simp) rfl,
   C4_error_taxonomy.2.2.2.2.2.2.1 "c" [("entries",
      .vList [.vDict [("id", .vStr "aaaaaaaaaaa")]])]
      [.vDict [("id", .vStr "aaaaaaaaaaa")]] rfl (by decide),
   C4_error_taxonomy.2.2.2.2.2.2.2.1 { path := "/nope", is_dir := false, entries := [] }
      rfl,
   C4_error_taxonomy.2.2.2.2.2.2.2.2 { path := "/v", is_dir := true, entries := [] }
      rfl⟩

/-- C10: an entry dict without an `"id"` key makes the remote lister fail
with the `KeyError` kind, which is none of the four named kinds; and the
lister accepts any value stored under `"id"` without validating that it
is an 11-character string. -/
theorem C10_missing_id_key :
    (∀ (ch : String) (kvs0 : List (String × Val)) (pre : List Val)
       (kvs : List (String × Val)) (post : List Val),
       (dictGet kvs0 "entries").getD .vNone = .vList (pre ++ .vDict kvs :: post) →
       (∀ x ∈ pre, ∃ m, x = Val.vDict m ∧ (dictGet m "id").isSome) →
       dictGet kvs "id" = none →
       get_all_video_ids_from_channel ch (.vDict kvs0) = .error (.keyError "id")) ∧
    (Err.keyError "id" ≠ .invalidResponse ∧ (∀ s, Err.keyError "id" ≠ .emptyResult s) ∧
     Err.keyError "id" ≠ .malformedEntry ∧ (∀ s, Err.keyError "id" ≠ .invalidPath s)) ∧
    (∀ (ch : String) (v : Val),
       get_all_video_ids_from_channel ch
         (.vDict [("entries", .vList [.vDict [("id", v)]])]) = .ok [v]) := by
  refine ⟨?_, ⟨by simp, fun s => by simp, by simp, fun s => by simp⟩, ?_⟩
  · intro ch kvs0 pre kvs post hv hpre hid
    have hes : (pre ++ Val.vDict kvs :: post).isEmpty = false := by
      cases pre <;> rfl
    simp only [get_all_video_ids_from_channel, hv, hes, Bool.false_eq_true,
      if_false]
    refine (except_map_error_iff _ _ _).mpr ?_
    refine extract_ids_append_good pre (.vDict kvs :: post) hpre _ ?_
    simp only [extract_ids, hid]
  · intro ch v
    show (extract_ids [Val.vDict [("id", v)]]).map (fun ids => ids.dedup) = .ok [v]
    simp [extract_ids, dictGet, Except.map]

/-- Witness for C10: a concrete entry without `"id"`, and a one-character
identifier accepted unvalidated. -/
theorem C10_missing_id_key_witness :
    get_all_video_ids_from_channel "c" (.vDict [("entries", .vList [.vDict []])]) =
      .error (.keyError "id") ∧
    get_all_video_ids_from_channel "c"
      (.vDict [("entries", .vList [.vDict [("id", .vStr "x")]])]) =
      .ok [Val.vStr "x"] :=
  ⟨C10_missing_id_key.1 "c" [("entries", .vList [.vDict []])] [] [] [] rfl
      (by simp) rfl,
   C10_missing_id_key.2.2 "c" (.vStr "x")⟩
